import Mathlib

set_option maxHeartbeats 1000000

namespace LabEnv

/-- Kinds of AWS resources created by c_KubernetesNetwork.__init__ in
src/pulumi/core-infra/networking.py. -/
inductive RKind where
  | vpc
  | subnet
  | internetGateway
  | elasticIp
  | natGateway
  | routeTable
deriving DecidableEq

/-- One entry of the routes list of aws.ec2.RouteTable
(aws.ec2.RouteTableRouteArgs, with fields cidr_block and gateway_id). -/
structure Route where
  cidr_block : String
  gateway_id : Nat
deriving DecidableEq

/-- A realized AWS resource. rid models the unique opaque id handle the
provisioning engine assigns (here: the creation counter); the remaining
fields are exactly the inputs networking.py passes to the aws.ec2 calls.
Fields a given call does not pass stay at their defaults; in particular no
call in networking.py passes a tags argument, so tags records whether a tag
mapping was supplied at creation. -/
structure Resource where
  rid : Nat
  kind : RKind
  rname : String
  cidr_block : Option String := none
  enable_dns_hostnames : Option Bool := none
  enable_dns_support : Option Bool := none
  vpc_id : Option Nat := none
  allocation_id : Option Nat := none
  subnet_id : Option Nat := none
  routes : List Route := []
  tags : Option (List (String × String)) := none
deriving DecidableEq

/-- Lookup in an association list, first binding wins.  Used both for the
MY_CIDR dict (whose keys are unique, so this is plain dict lookup) and for
the object attribute environment, which is built by consing so that the
first match is the most recent setattr. -/
def alGet {α : Type} : List (String × α) → String → Option α
  | [], _ => none
  | p :: rest, k => if p.1 = k then some p.2 else alGet rest k

/-- List indexing, modelling Python list subscription (raising = none). -/
def nth {α : Type} : List α → Nat → Option α
  | [], _ => none
  | x :: _, 0 => some x
  | _ :: xs, n + 1 => nth xs n

/-- The Python exceptions c_KubernetesNetwork.__init__ can raise:
KeyError from MY_CIDR["vpc"], IndexError from list(MY_CIDR.keys())[1],
AttributeError from getattr/self attribute access. -/
inductive PyError where
  | keyError (k : String)
  | indexError
  | attributeError (k : String)
deriving DecidableEq

/-- State threaded through __init__: the provisioner's id counter, the
resources created so far (in creation order), and the object's attribute
environment (the self.* bindings made by __init__), most recent first. -/
structure St where
  counter : Nat
  created : List Resource
  env : List (String × Resource)
deriving DecidableEq

/-- Result of the subnet loop: the updated state, or a raised error together
with the resources already created before it. -/
inductive SubRes where
  | ok (s : St)
  | err (e : PyError) (created : List Resource)
deriving DecidableEq

/-- Result of running __init__: the full creation list, or the raised error
together with the resources already created before it (Python exceptions do
not undo resources already registered with the engine). -/
inductive BuildResult where
  | ok (created : List Resource)
  | err (e : PyError) (created : List Resource)
deriving DecidableEq

/-- The Subnet resource the loop creates for entry (k, v) when the counter
is at c0 and self.kubernetes_vpc currently holds the resource with id vid
(the same record is stored in the creation list and bound by setattr). -/
def subnetRes (c0 : Nat) (k v : String) (vid : Nat) : Resource :=
  { rid := c0, kind := .subnet, rname := k, cidr_block := some v,
    vpc_id := some vid }

/-- The Vpc resource ("kubernetes-vpc") created from container CIDR c. -/
def vres (c : String) : Resource :=
  { rid := 0, kind := .vpc, rname := "kubernetes-vpc", cidr_block := some c,
    enable_dns_hostnames := some true, enable_dns_support := some true }

/-- The subnet loop of networking.py lines 17-24:
for k,v in list(MY_CIDR.items())[1:]:
    setattr(self, k, aws.ec2.Subnet(k, vpc_id=self.kubernetes_vpc.id,
                                    cidr_block=v, opts=...))
Note that vpc_id reads the current self.kubernetes_vpc binding on every
iteration and setattr overwrites any existing attribute of the same name. -/
def addSubnets : List (String × String) → St → SubRes
  | [], s => .ok s
  | (k, v) :: rest, s =>
    match alGet s.env "kubernetes_vpc" with
    | none => .err (.attributeError "kubernetes_vpc") s.created
    | some vpcRes =>
      addSubnets rest
        { counter := s.counter + 1,
          created := s.created ++ [subnetRes s.counter k v vpcRes.rid],
          env := (k, subnetRes s.counter k v vpcRes.rid) :: s.env }

/-- Shallow embedding of c_KubernetesNetwork.__init__
(src/pulumi/core-infra/networking.py lines 6-59), in source order:
Vpc("kubernetes-vpc", cidr_block=MY_CIDR["vpc"], dns flags), the subnet
loop over list(MY_CIDR.items())[1:], InternetGateway("public-igw",
vpc_id=self.kubernetes_vpc.id), Eip("natgw-eip"), NatGateway("ngw",
allocation_id=self.eip.id, subnet_id=getattr(self,
list(MY_CIDR.keys())[1]).id), and RouteTable("nat-route-table",
vpc_id=self.kubernetes_vpc.id, routes=[RouteTableRouteArgs(
cidr_block="0.0.0.0/0", gateway_id=self.ngw.id)]).  Resource ids are the
provisioner counter; the component name parameter and the pulumi parent
options do not feed into any created resource and are not modelled. -/
def c_KubernetesNetwork (MY_CIDR : List (String × String)) : BuildResult :=
  match alGet MY_CIDR "vpc" with
  | none => .err (.keyError "vpc") []
  | some vpcCidr =>
    let s0 : St := { counter := 1, created := [vres vpcCidr],
                     env := [("kubernetes_vpc", vres vpcCidr)] }
    match addSubnets (MY_CIDR.drop 1) s0 with
    | .err e cr => .err e cr
    | .ok s1 =>
      match alGet s1.env "kubernetes_vpc" with
      | none => .err (.attributeError "kubernetes_vpc") s1.created
      | some vAttr =>
        let igwR : Resource :=
          { rid := s1.counter, kind := .internetGateway,
            rname := "public-igw", vpc_id := some vAttr.rid }
        let s2 : St := { counter := s1.counter + 1,
                         created := s1.created ++ [igwR],
                         env := ("igw", igwR) :: s1.env }
        let eipR : Resource :=
          { rid := s2.counter, kind := .elasticIp, rname := "natgw-eip" }
        let s3 : St := { counter := s2.counter + 1,
                         created := s2.created ++ [eipR],
                         env := ("eip", eipR) :: s2.env }
        match alGet s3.env "eip" with
        | none => .err (.attributeError "eip") s3.created
        | some eipAttr =>
          match nth (MY_CIDR.map Prod.fst) 1 with
          | none => .err .indexError s3.created
          | some k1 =>
            match alGet s3.env k1 with
            | none => .err (.attributeError k1) s3.created
            | some posRes =>
              let ngwR : Resource :=
                { rid := s3.counter, kind := .natGateway, rname := "ngw",
                  allocation_id := some eipAttr.rid,
                  subnet_id := some posRes.rid }
              let s4 : St := { counter := s3.counter + 1,
                               created := s3.created ++ [ngwR],
                               env := ("ngw", ngwR) :: s3.env }
              match alGet s4.env "kubernetes_vpc" with
              | none => .err (.attributeError "kubernetes_vpc") s4.created
              | some vAttr2 =>
                match alGet s4.env "ngw" with
                | none => .err (.attributeError "ngw") s4.created
                | some ngwAttr =>
                  .ok (s4.created ++
                    [{ rid := s4.counter, kind := .routeTable,
                       rname := "nat-route-table",
                       vpc_id := some vAttr2.rid,
                       routes := [{ cidr_block := "0.0.0.0/0",
                                    gateway_id := ngwAttr.rid }] }])

/-- The resources of a given kind, in creation order. -/
def ofKind : List Resource → RKind → List Resource
  | [], _ => []
  | r :: rest, k => if r.kind = k then r :: ofKind rest k else ofKind rest k

/-- Whether __init__ ran to completion without raising. -/
def okB : BuildResult → Bool
  | .ok _ => true
  | .err _ _ => false

/-- The creation list of a successful run ([] on error). -/
def okCreated : BuildResult → List Resource
  | .ok cr => cr
  | .err _ _ => []

/-- The raised error of a failed run (none on success). -/
def errKind : BuildResult → Option PyError
  | .ok _ => none
  | .err e _ => some e

/-- Python dict item assignment d[k] = v: replace the value of an existing
key in place, else append the new pair. -/
def dSet : List (String × String) → String → String → List (String × String)
  | [], k, v => [(k, v)]
  | p :: rest, k, v =>
    if p.1 = k then (k, v) :: rest else p :: dSet rest k v

/-- Python dict.update(new): item-assign every pair of new, in order. -/
def pyUpdate : List (String × String) → List (String × String) →
    List (String × String)
  | d, [] => d
  | d, (k, v) :: rest => pyUpdate (dSet d k v) rest

/-- Shallow embedding of merge_tags (src/pulumi/core-infra/helper.py lines
35-45).  The global tags read from configuration by get_global_tags are an
explicit parameter; additional_tags = none models the Python default None,
and the falsiness test "if additional_tags:" also skips an empty dict. -/
def merge_tags (globalTags : List (String × String)) (resource_name : String)
    (additional_tags : Option (List (String × String))) :
    List (String × String) :=
  let tags := dSet globalTags "Name" resource_name
  match additional_tags with
  | none => tags
  | some a => if a.isEmpty then tags else pyUpdate tags a

/-- The InternetGateway resource, after m subnets; v1 is the rid held by the
kubernetes_vpc attribute at that point. -/
def igwShape (m v1 : Nat) : Resource :=
  { rid := 1 + m, kind := .internetGateway, rname := "public-igw",
    vpc_id := some v1 }

/-- The Eip resource, after m subnets. -/
def eipShape (m : Nat) : Resource :=
  { rid := 1 + m + 1, kind := .elasticIp, rname := "natgw-eip" }

/-- The NatGateway resource, after m subnets; sid is the rid held by the
attribute named by position 1 of MY_CIDR at that point. -/
def ngwShape (m sid : Nat) : Resource :=
  { rid := 1 + m + 1 + 1, kind := .natGateway, rname := "ngw",
    allocation_id := some (1 + m + 1), subnet_id := some sid }

/-- The RouteTable resource, after m subnets; its single route sends
0.0.0.0/0 to the NatGateway's rid. -/
def rtShape (m v1 : Nat) : Resource :=
  { rid := 1 + m + 1 + 1 + 1, kind := .routeTable,
    rname := "nat-route-table", vpc_id := some v1,
    routes := [{ cidr_block := "0.0.0.0/0", gateway_id := 1 + m + 1 + 1 }] }

/-- A well-behaved request: container plus an egress and one more subnet. -/
def wStd : List (String × String) :=
  [("vpc", "10.0.0.0/21"), ("pub", "10.0.5.0/28"), ("a", "10.0.1.0/27")]

/-- The topology c_KubernetesNetwork creates for wStd. -/
def TStd : List Resource :=
  [{ rid := 0, kind := .vpc, rname := "kubernetes-vpc",
     cidr_block := some "10.0.0.0/21",
     enable_dns_hostnames := some true, enable_dns_support := some true },
   { rid := 1, kind := .subnet, rname := "pub",
     cidr_block := some "10.0.5.0/28", vpc_id := some 0 },
   { rid := 2, kind := .subnet, rname := "a",
     cidr_block := some "10.0.1.0/27", vpc_id := some 0 },
   { rid := 3, kind := .internetGateway, rname := "public-igw",
     vpc_id := some 0 },
   { rid := 4, kind := .elasticIp, rname := "natgw-eip" },
   { rid := 5, kind := .natGateway, rname := "ngw",
     allocation_id := some 4, subnet_id := some 1 },
   { rid := 6, kind := .routeTable, rname := "nat-route-table",
     vpc_id := some 0,
     routes := [{ cidr_block := "0.0.0.0/0", gateway_id := 5 }] }]

/-- A request whose container entry "vpc" sits at position 1, not 0. -/
def wAlt : List (String × String) :=
  [("front", "10.0.9.0/24"), ("vpc", "10.0.0.0/16"), ("b", "10.0.1.0/24")]

/-- The topology c_KubernetesNetwork creates for wAlt: the network CIDR is
taken from the entry named "vpc" even though it is not first, the entry at
position 0 ("front") is the one skipped for subnet creation, and a subnet is
also created from the "vpc" entry. -/
def TAlt : List Resource :=
  [{ rid := 0, kind := .vpc, rname := "kubernetes-vpc",
     cidr_block := some "10.0.0.0/16",
     enable_dns_hostnames := some true, enable_dns_support := some true },
   { rid := 1, kind := .subnet, rname := "vpc",
     cidr_block := some "10.0.0.0/16", vpc_id := some 0 },
   { rid := 2, kind := .subnet, rname := "b",
     cidr_block := some "10.0.1.0/24", vpc_id := some 0 },
   { rid := 3, kind := .internetGateway, rname := "public-igw",
     vpc_id := some 0 },
   { rid := 4, kind := .elasticIp, rname := "natgw-eip" },
   { rid := 5, kind := .natGateway, rname := "ngw",
     allocation_id := some 4, subnet_id := some 1 },
   { rid := 6, kind := .routeTable, rname := "nat-route-table",
     vpc_id := some 0,
     routes := [{ cidr_block := "0.0.0.0/0", gateway_id := 5 }] }]

/-- A request whose position-1 block is named "igw", colliding with the
attribute name the component later assigns to the InternetGateway. -/
def ex2 : List (String × String) :=
  [("vpc", "10.0.0.0/16"), ("igw", "10.0.1.0/24")]

/-- A request with a subordinate block named "kubernetes_vpc", colliding
with the attribute holding the Vpc handle. -/
def ex3 : List (String × String) :=
  [("vpc", "10.0.0.0/16"), ("kubernetes_vpc", "10.0.1.0/24"),
   ("b", "10.0.2.0/24")]

/-- The spec's public-range scenario: 8.8.8.0/24 is not RFC1918 space. -/
def ex4 : List (String × String) :=
  [("vpc", "8.8.8.0/24"), ("s", "8.8.8.0/25")]

/-- The spec's overlapping scenario: blocks a and b intersect. -/
def ex5 : List (String × String) :=
  [("vpc", "10.0.0.0/24"), ("a", "10.0.0.0/25"), ("b", "10.0.0.64/25")]

/-- The topology c_KubernetesNetwork creates for ex5 (both overlapping
subnets are realized unchanged). -/
def T5 : List Resource :=
  [{ rid := 0, kind := .vpc, rname := "kubernetes-vpc",
     cidr_block := some "10.0.0.0/24",
     enable_dns_hostnames := some true, enable_dns_support := some true },
   { rid := 1, kind := .subnet, rname := "a",
     cidr_block := some "10.0.0.0/25", vpc_id := some 0 },
   { rid := 2, kind := .subnet, rname := "b",
     cidr_block := some "10.0.0.64/25", vpc_id := some 0 },
   { rid := 3, kind := .internetGateway, rname := "public-igw",
     vpc_id := some 0 },
   { rid := 4, kind := .elasticIp, rname := "natgw-eip" },
   { rid := 5, kind := .natGateway, rname := "ngw",
     allocation_id := some 4, subnet_id := some 1 },
   { rid := 6, kind := .routeTable, rname := "nat-route-table",
     vpc_id := some 0,
     routes := [{ cidr_block := "0.0.0.0/0", gateway_id := 5 }] }]

/-- A request with the container block only and no subordinate block. -/
def ex6 : List (String × String) := [("vpc", "10.0.0.0/16")]

theorem alGet_cons_self {α : Type} (k : String) (x : α)
    (l : List (String × α)) : alGet ((k, x) :: l) k = some x := by
  simp [alGet]

theorem alGet_cons_ne {α : Type} (k k' : String) (x : α)
    (l : List (String × α)) (h : k ≠ k') :
    alGet ((k, x) :: l) k' = alGet l k' := by
  simp [alGet, h]

theorem ofKind_append (l1 l2 : List Resource) (k : RKind) :
    ofKind (l1 ++ l2) k = ofKind l1 k ++ ofKind l2 k := by
  induction l1 with
  | nil => simp [ofKind]
  | cons x xs ih =>
    simp only [List.cons_append, ofKind]
    split <;> simp [ih]

theorem ofKind_nil_of_kinds (l : List Resource) (k : RKind)
    (hk : ∀ x ∈ l, x.kind ≠ k) : ofKind l k = [] := by
  induction l with
  | nil => rfl
  | cons x xs ih =>
    simp only [ofKind]
    rw [if_neg (hk x (by simp))]
    exact ih (fun y hy => hk y (by simp [hy]))

theorem ofKind_all_of_kinds (l : List Resource) (k : RKind)
    (hk : ∀ x ∈ l, x.kind = k) : ofKind l k = l := by
  induction l with
  | nil => rfl
  | cons x xs ih =>
    simp only [ofKind]
    rw [if_pos (hk x (by simp))]
    rw [ih (fun y hy => hk y (by simp [hy]))]

/-- Full characterization of the subnet loop when the kubernetes_vpc
attribute is bound: it succeeds, appends one subnet per block in request
order with the given name and CIDR, leaves attribute bindings for names not
in the block list untouched, binds every block name, and — when no block is
named kubernetes_vpc — gives every new subnet the vpc_id it read from the
initial binding. -/
theorem addSubnets_spec (blocks : List (String × String)) :
    ∀ (s : St) (v : Resource), alGet s.env "kubernetes_vpc" = some v →
    ∃ (s' : St) (subs : List Resource),
      addSubnets blocks s = .ok s' ∧
      s'.counter = s.counter + blocks.length ∧
      s'.created = s.created ++ subs ∧
      subs.map (fun x => (x.rname, x.cidr_block)) =
        blocks.map (fun b => (b.1, some b.2)) ∧
      (∀ x ∈ subs, x.kind = .subnet ∧ x.routes = [] ∧ x.tags = none ∧
        x.allocation_id = none ∧ x.subnet_id = none) ∧
      (∀ k, k ∉ blocks.map Prod.fst → alGet s'.env k = alGet s.env k) ∧
      (∀ k, k ∈ blocks.map Prod.fst → ∃ x, alGet s'.env k = some x) ∧
      ("kubernetes_vpc" ∉ blocks.map Prod.fst →
        ∀ x ∈ subs, x.vpc_id = some v.rid) := by
  induction blocks with
  | nil =>
    intro s v hv
    exact ⟨s, [], rfl, by simp, by simp, rfl, by simp, fun k _ => rfl,
      by simp, by simp⟩
  | cons b rest ih =>
    intro s v hv
    obtain ⟨k0, v0⟩ := b
    have hstep : addSubnets ((k0, v0) :: rest) s =
        addSubnets rest
          { counter := s.counter + 1,
            created := s.created ++ [subnetRes s.counter k0 v0 v.rid],
            env := (k0, subnetRes s.counter k0 v0 v.rid) :: s.env } := by
      simp [addSubnets, hv]
    set sub0 : Resource := subnetRes s.counter k0 v0 v.rid with hsub0
    set s1 : St := ({ counter := s.counter + 1, created := s.created ++ [sub0], env := (k0, sub0) :: s.env }) with hs1
    by_cases hk0 : k0 = "kubernetes_vpc"
    · have hv1 : alGet s1.env "kubernetes_vpc" = some sub0 := by
        rw [hs1]
        show alGet ((k0, sub0) :: s.env) "kubernetes_vpc" = some sub0
        rw [hk0]
        exact alGet_cons_self _ _ _
      obtain ⟨s', subs, hAS, hcnt, hcr, hmap, hall, hpres, hmem, _⟩ :=
        ih s1 sub0 hv1
      refine ⟨s', sub0 :: subs, ?_, ?_, ?_, ?_, ?_, ?_, ?_, ?_⟩
      · rw [hstep]; exact hAS
      · rw [hcnt]; simp [hs1]; omega
      · rw [hcr]; simp [hs1]
      · simp only [List.map_cons, hmap, hsub0, subnetRes]
      · intro x hx
        rcases List.mem_cons.mp hx with h | hx
        · rw [h, hsub0]
          exact ⟨rfl, rfl, rfl, rfl, rfl⟩
        · exact hall x hx
      · intro k hk
        simp only [List.map_cons, List.mem_cons, not_or] at hk
        rw [hpres k hk.2, hs1]
        exact alGet_cons_ne k0 k sub0 s.env (fun h => hk.1 h.symm)
      · intro k hk
        simp only [List.map_cons, List.mem_cons] at hk
        by_cases hkr : k ∈ rest.map Prod.fst
        · exact hmem k hkr
        · rcases hk with rfl | hk
          · refine ⟨sub0, ?_⟩
            rw [hpres k hkr, hs1]
            exact alGet_cons_self _ _ _
          · exact absurd hk hkr
      · intro hnot
        exfalso
        apply hnot
        simp [hk0]
    · have hv1 : alGet s1.env "kubernetes_vpc" = some v := by
        rw [hs1]
        show alGet ((k0, sub0) :: s.env) "kubernetes_vpc" = some v
        rw [alGet_cons_ne k0 _ sub0 s.env hk0]
        exact hv
      obtain ⟨s', subs, hAS, hcnt, hcr, hmap, hall, hpres, hmem, hshadow⟩ :=
        ih s1 v hv1
      refine ⟨s', sub0 :: subs, ?_, ?_, ?_, ?_, ?_, ?_, ?_, ?_⟩
      · rw [hstep]; exact hAS
      · rw [hcnt]; simp [hs1]; omega
      · rw [hcr]; simp [hs1]
      · simp only [List.map_cons, hmap, hsub0, subnetRes]
      · intro x hx
        rcases List.mem_cons.mp hx with h | hx
        · rw [h, hsub0]
          exact ⟨rfl, rfl, rfl, rfl, rfl⟩
        · exact hall x hx
      · intro k hk
        simp only [List.map_cons, List.mem_cons, not_or] at hk
        rw [hpres k hk.2, hs1]
        exact alGet_cons_ne k0 k sub0 s.env (fun h => hk.1 h.symm)
      · intro k hk
        simp only [List.map_cons, List.mem_cons] at hk
        by_cases hkr : k ∈ rest.map Prod.fst
        · exact hmem k hkr
        · rcases hk with rfl | hk
          · refine ⟨sub0, ?_⟩
            rw [hpres k hkr, hs1]
            exact alGet_cons_self _ _ _
          · exact absurd hk hkr
      · intro hnot
        simp only [List.map_cons, List.mem_cons, not_or] at hnot
        intro x hx
        rcases List.mem_cons.mp hx with h | hx
        · rw [h, hsub0]
          rfl
        · exact hshadow hnot.2 x hx

/-- The first block of the loop always becomes the subnet with
rid = s.counter and vpc_id read from the initial kubernetes_vpc binding,
and — when no later block reuses its name — the attribute named after it
still holds that subnet when the loop ends. -/
theorem addSubnets_head (k0 v0 : String) (rest : List (String × String))
    (s : St) (v : Resource)
    (hv : alGet s.env "kubernetes_vpc" = some v)
    (hfresh : k0 ∉ rest.map Prod.fst) :
    ∃ (s' : St) (subs : List Resource),
      addSubnets ((k0, v0) :: rest) s = .ok s' ∧
      s'.created = s.created ++ (subnetRes s.counter k0 v0 v.rid :: subs) ∧
      alGet s'.env k0 = some (subnetRes s.counter k0 v0 v.rid) := by
  have hstep : addSubnets ((k0, v0) :: rest) s =
      addSubnets rest
        { counter := s.counter + 1,
          created := s.created ++ [subnetRes s.counter k0 v0 v.rid],
          env := (k0, subnetRes s.counter k0 v0 v.rid) :: s.env } := by
    simp [addSubnets, hv]
  set sub0 : Resource := subnetRes s.counter k0 v0 v.rid with hsub0
  set s1 : St := ({ counter := s.counter + 1, created := s.created ++ [sub0], env := (k0, sub0) :: s.env }) with hs1
  have hv1 : ∃ v1, alGet s1.env "kubernetes_vpc" = some v1 := by
    by_cases hk0 : k0 = "kubernetes_vpc"
    · refine ⟨sub0, ?_⟩
      rw [hs1]
      show alGet ((k0, sub0) :: s.env) "kubernetes_vpc" = some sub0
      rw [hk0]
      exact alGet_cons_self _ _ _
    · refine ⟨v, ?_⟩
      rw [hs1]
      show alGet ((k0, sub0) :: s.env) "kubernetes_vpc" = some v
      rw [alGet_cons_ne k0 _ sub0 s.env hk0]
      exact hv
  obtain ⟨v1, hv1⟩ := hv1
  obtain ⟨s', subs, hAS, _, hcr, _, _, hpres, _, _⟩ :=
    addSubnets_spec rest s1 v1 hv1
  refine ⟨s', subs, ?_, ?_, ?_⟩
  · rw [hstep]; exact hAS
  · rw [hcr]; simp [hs1]
  · rw [hpres k0 hfresh, hs1]
    exact alGet_cons_self _ _ _

/-- Full characterization of a run on a request with at least two entries
whose dict has a "vpc" key: __init__ succeeds and creates, in order, the
Vpc, one subnet per entry from position 1 on, the InternetGateway, the Eip,
the NatGateway, and the RouteTable whose single route sends 0.0.0.0/0 to
the NatGateway's id.  v1 is the id the kubernetes_vpc attribute held when
the gateways were wired (0 = the Vpc unless a subordinate block shadowed
the attribute) and sid is the id held by the attribute named like the
position-1 block (that block's subnet, unless its name is igw or eip or is
reused later). -/
theorem construct_shape (a : String × String) (bk bv : String)
    (rest2 : List (String × String)) (c : String)
    (hc : alGet (a :: (bk, bv) :: rest2) "vpc" = some c) :
    ∃ (subs : List Resource) (v1 sid : Nat),
      c_KubernetesNetwork (a :: (bk, bv) :: rest2) =
        .ok ([vres c] ++ subs ++
          [igwShape (rest2.length + 1) v1, eipShape (rest2.length + 1),
           ngwShape (rest2.length + 1) sid, rtShape (rest2.length + 1) v1]) ∧
      subs.map (fun x => (x.rname, x.cidr_block)) =
        ((bk, bv) :: rest2).map (fun p => (p.1, some p.2)) ∧
      (∀ x ∈ subs, x.kind = .subnet ∧ x.routes = [] ∧ x.tags = none ∧
        x.allocation_id = none ∧ x.subnet_id = none) ∧
      ("kubernetes_vpc" ∉ ((bk, bv) :: rest2).map Prod.fst →
        v1 = 0 ∧ ∀ x ∈ subs, x.vpc_id = some 0) ∧
      (bk ≠ "igw" → bk ≠ "eip" → bk ∉ rest2.map Prod.fst →
        sid = 1 ∧ nth subs 0 = some (subnetRes 1 bk bv 0)) := by
  have hv0 : alGet ([("kubernetes_vpc", vres c)]) "kubernetes_vpc" =
      some (vres c) := alGet_cons_self _ _ _
  obtain ⟨s1, subs, hAS, hcnt, hcr, hmap, hall, hpres, hmem, hshadow⟩ :=
    addSubnets_spec ((bk, bv) :: rest2)
      ({ counter := 1, created := [vres c],
         env := [("kubernetes_vpc", vres c)] } : St) (vres c) hv0
  have hvA : ∃ vA : Resource, alGet s1.env "kubernetes_vpc" = some vA := by
    by_cases hmem2 : "kubernetes_vpc" ∈ ((bk, bv) :: rest2).map Prod.fst
    · exact hmem _ hmem2
    · exact ⟨vres c, by rw [hpres _ hmem2]; exact hv0⟩
  obtain ⟨vA, hvA⟩ := hvA
  have hm : s1.counter = 1 + (rest2.length + 1) := by
    rw [hcnt]; simp
  have hbk_mem : bk ∈ ((bk, bv) :: rest2).map Prod.fst := by simp
  obtain ⟨posS1, hposS1⟩ := hmem bk hbk_mem
  have hpos : ∃ posRes : Resource,
      alGet (("eip", eipShape (rest2.length + 1)) ::
             ("igw", igwShape (rest2.length + 1) vA.rid) :: s1.env) bk =
        some posRes ∧
      (bk ≠ "igw" → bk ≠ "eip" → bk ∉ rest2.map Prod.fst →
        posRes = subnetRes 1 bk bv 0) := by
    by_cases hbe : bk = "eip"
    · refine ⟨eipShape (rest2.length + 1), ?_, ?_⟩
      · rw [hbe]
        exact alGet_cons_self _ _ _
      · intro _ h2 _
        exact absurd hbe h2
    · by_cases hbi : bk = "igw"
      · refine ⟨igwShape (rest2.length + 1) vA.rid, ?_, ?_⟩
        · rw [alGet_cons_ne _ _ _ _ (fun h => hbe h.symm), hbi]
          exact alGet_cons_self _ _ _
        · intro h1 _ _
          exact absurd hbi h1
      · refine ⟨posS1, ?_, ?_⟩
        · rw [alGet_cons_ne _ _ _ _ (fun h => hbe h.symm),
              alGet_cons_ne _ _ _ _ (fun h => hbi h.symm)]
          exact hposS1
        · intro _ _ hfresh
          obtain ⟨s1h, subs2, hASh, hcrh, henvh⟩ :=
            addSubnets_head bk bv rest2
              ({ counter := 1, created := [vres c],
                 env := [("kubernetes_vpc", vres c)] } : St) (vres c)
              hv0 hfresh
          rw [hAS] at hASh
          have hs1h : s1 = s1h := SubRes.ok.inj hASh
          rw [← hs1h] at henvh
          rw [hposS1] at henvh
          exact Option.some.inj henvh
  obtain ⟨posRes, hposEq, hposFresh⟩ := hpos
  refine ⟨subs, vA.rid, posRes.rid, ?_, ?_, ?_, ?_, ?_⟩
  · have hposEq2 : alGet (("eip",
        ({ rid := 1 + (rest2.length + 1) + 1, kind := RKind.elasticIp,
           rname := "natgw-eip" } : Resource)) ::
        ("igw",
        ({ rid := 1 + (rest2.length + 1), kind := RKind.internetGateway,
           rname := "public-igw", vpc_id := some vA.rid } : Resource)) ::
        s1.env) bk = some posRes := by
      simpa [igwShape, eipShape] using hposEq
    have nth1 : ∀ (x y : String) (l : List String),
        nth (x :: y :: l) 1 = some y := fun _ _ _ => rfl
    simp only [c_KubernetesNetwork, hc, List.drop_succ_cons, List.drop_zero,
      hAS, hm, hvA, alGet_cons_self, List.map_cons, nth1, hposEq2]
    simp [alGet, hcr, hvA, vres, igwShape, eipShape, ngwShape, rtShape]
  · exact hmap
  · exact hall
  · intro hnone
    have hvac : alGet s1.env "kubernetes_vpc" = some (vres c) := by
      rw [hpres _ hnone]
      exact hv0
    rw [hvac] at hvA
    have : vA = vres c := (Option.some.inj hvA).symm
    constructor
    · rw [this]
      rfl
    · exact hshadow hnone
  · intro h1 h2 h3
    have hp := hposFresh h1 h2 h3
    constructor
    · rw [hp]
      rfl
    · have hxx : s1.created = [vres c] ++ subs := hcr
      obtain ⟨s1h, subs2, hASh, hcrh, henvh⟩ :=
        addSubnets_head bk bv rest2
          ({ counter := 1, created := [vres c],
             env := [("kubernetes_vpc", vres c)] } : St) (vres c) hv0 h3
      rw [hAS] at hASh
      have hs1h : s1 = s1h := SubRes.ok.inj hASh
      rw [← hs1h] at hcrh
      rw [hxx] at hcrh
      have hsubs : subs = subnetRes 1 bk bv 0 :: subs2 := by
        have := List.append_cancel_left hcrh
        simpa [vres] using this
      rw [hsubs]
      rfl

/-- A successful run forces a request with at least two entries and a "vpc"
key: with fewer entries __init__ raises (KeyError or IndexError). -/
theorem construct_ok_inv (r : List (String × String)) (t : List Resource)
    (h : c_KubernetesNetwork r = .ok t) :
    ∃ (a : String × String) (bk bv : String)
      (rest2 : List (String × String)) (c : String),
      r = a :: (bk, bv) :: rest2 ∧ alGet r "vpc" = some c := by
  match r with
  | [] => simp [c_KubernetesNetwork, alGet] at h
  | [x] =>
    cases hv : alGet [x] "vpc" with
    | none => simp [c_KubernetesNetwork, hv] at h
    | some c =>
      have hv2 : (if x.1 = "vpc" then some x.2 else none) = some c := hv
      have hnth : nth [x.1] 1 = (none : Option String) := rfl
      simp [c_KubernetesNetwork, hv2, addSubnets, alGet, hnth] at h
  | a :: b :: rest2 =>
    obtain ⟨bk, bv⟩ := b
    cases hv : alGet (a :: (bk, bv) :: rest2) "vpc" with
    | none => simp [c_KubernetesNetwork, hv] at h
    | some c => exact ⟨a, bk, bv, rest2, c, rfl, rfl⟩

/-- ofKind picks exactly the right component out of the shape of a
successful run. -/
theorem ofKind_shape (c : String) (subs : List Resource) (m v1 sid : Nat)
    (hall : ∀ x ∈ subs, x.kind = RKind.subnet) :
    ofKind ([vres c] ++ subs ++
      [igwShape m v1, eipShape m, ngwShape m sid, rtShape m v1])
      RKind.vpc = [vres c] ∧
    ofKind ([vres c] ++ subs ++
      [igwShape m v1, eipShape m, ngwShape m sid, rtShape m v1])
      RKind.subnet = subs ∧
    ofKind ([vres c] ++ subs ++
      [igwShape m v1, eipShape m, ngwShape m sid, rtShape m v1])
      RKind.internetGateway = [igwShape m v1] ∧
    ofKind ([vres c] ++ subs ++
      [igwShape m v1, eipShape m, ngwShape m sid, rtShape m v1])
      RKind.elasticIp = [eipShape m] ∧
    ofKind ([vres c] ++ subs ++
      [igwShape m v1, eipShape m, ngwShape m sid, rtShape m v1])
      RKind.natGateway = [ngwShape m sid] ∧
    ofKind ([vres c] ++ subs ++
      [igwShape m v1, eipShape m, ngwShape m sid, rtShape m v1])
      RKind.routeTable = [rtShape m v1] := by
  have hsubnil : ∀ k2 : RKind, k2 ≠ RKind.subnet → ofKind subs k2 = [] := by
    intro k2 hk2
    exact ofKind_nil_of_kinds subs k2
      (fun x hx => by rw [hall x hx]; exact fun hh => hk2 hh.symm)
  refine ⟨?_, ?_, ?_, ?_, ?_, ?_⟩
  · simp [ofKind_append, ofKind, vres, igwShape, eipShape, ngwShape, rtShape,
      hsubnil RKind.vpc (by decide)]
  · simp [ofKind_append, ofKind, vres, igwShape, eipShape, ngwShape, rtShape,
      ofKind_all_of_kinds subs RKind.subnet hall]
  · simp [ofKind_append, ofKind, vres, igwShape, eipShape, ngwShape, rtShape,
      hsubnil RKind.internetGateway (by decide)]
  · simp [ofKind_append, ofKind, vres, igwShape, eipShape, ngwShape, rtShape,
      hsubnil RKind.elasticIp (by decide)]
  · simp [ofKind_append, ofKind, vres, igwShape, eipShape, ngwShape, rtShape,
      hsubnil RKind.natGateway (by decide)]
  · simp [ofKind_append, ofKind, vres, igwShape, eipShape, ngwShape, rtShape,
      hsubnil RKind.routeTable (by decide)]

/-- C1: for every constructed topology there is exactly one RouteTable,
one NatGateway and one InternetGateway; the RouteTable's route list is
exactly one default route (0.0.0.0/0) whose gateway_id is the NatGateway's
id, which differs from the InternetGateway's id. -/
theorem claim1_route_targets_nat (r : List (String × String))
    (t : List Resource) (h : c_KubernetesNetwork r = .ok t) :
    ∃ rt ngw igw, ofKind t RKind.routeTable = [rt] ∧
      ofKind t RKind.natGateway = [ngw] ∧
      ofKind t RKind.internetGateway = [igw] ∧
      rt.routes = [{ cidr_block := "0.0.0.0/0", gateway_id := ngw.rid }] ∧
      ngw.rid ≠ igw.rid := by
  obtain ⟨a, bk, bv, rest2, c, hr, hc⟩ := construct_ok_inv r t h
  subst hr
  obtain ⟨subs, v1, sid, heq, hmap, hall, _, _⟩ :=
    construct_shape a bk bv rest2 c hc
  rw [heq] at h
  have ht : t = [vres c] ++ subs ++ [igwShape (rest2.length + 1) v1,
      eipShape (rest2.length + 1), ngwShape (rest2.length + 1) sid,
      rtShape (rest2.length + 1) v1] := (BuildResult.ok.inj h).symm
  subst ht
  obtain ⟨_, _, higw, _, hngw, hrt⟩ :=
    ofKind_shape c subs (rest2.length + 1) v1 sid (fun x hx => (hall x hx).1)
  refine ⟨rtShape (rest2.length + 1) v1, ngwShape (rest2.length + 1) sid,
    igwShape (rest2.length + 1) v1, hrt, hngw, higw, rfl, ?_⟩
  simp only [ngwShape, igwShape]
  omega

/-- C1 witness: the theorem applied to the request wStd, whose topology is
the concrete list TStd. -/
theorem claim1_witness :
    c_KubernetesNetwork wStd = .ok TStd ∧
    (∃ rt ngw igw, ofKind TStd RKind.routeTable = [rt] ∧
      ofKind TStd RKind.natGateway = [ngw] ∧
      ofKind TStd RKind.internetGateway = [igw] ∧
      rt.routes = [{ cidr_block := "0.0.0.0/0", gateway_id := ngw.rid }] ∧
      ngw.rid ≠ igw.rid) :=
  ⟨by decide, claim1_route_targets_nat wStd TStd (by decide)⟩

/-- C2 counterexample: for the request ex2, whose position-1 block is named
"igw", the NatGateway's subnet_id (2) is the InternetGateway's id, not the
id of the subnet built from the position-1 block (1) — the claim fails. -/
theorem claim2_counterexample :
    (ofKind (okCreated (c_KubernetesNetwork ex2))
      RKind.natGateway).map (fun x => x.subnet_id) = [some 2] ∧
    (ofKind (okCreated (c_KubernetesNetwork ex2))
      RKind.subnet).map (fun x => x.rid) = [1] ∧
    (ofKind (okCreated (c_KubernetesNetwork ex2))
      RKind.internetGateway).map (fun x => x.rid) = [2] ∧
    okB (c_KubernetesNetwork ex2) = true := by decide

/-- C2 amended: if the position-1 block's name is neither "igw" nor "eip"
(the attribute names the component itself assigns before the NatGateway
reads them) and is not reused by a later block, then exactly one NatGateway
is created and it references exactly the ElasticAddress (allocation_id) and
the subnet built from the position-1 block (subnet_id). -/
theorem claim2_nat_dependencies (r : List (String × String))
    (t : List Resource) (k1 : String)
    (hk1 : nth (r.map Prod.fst) 1 = some k1)
    (h1 : k1 ≠ "igw") (h2 : k1 ≠ "eip")
    (h3 : k1 ∉ (r.drop 2).map Prod.fst)
    (h : c_KubernetesNetwork r = .ok t) :
    ∃ ngw eip sub, ofKind t RKind.natGateway = [ngw] ∧
      ofKind t RKind.elasticIp = [eip] ∧
      nth (ofKind t RKind.subnet) 0 = some sub ∧
      sub.rname = k1 ∧ ngw.allocation_id = some eip.rid ∧
      ngw.subnet_id = some sub.rid := by
  obtain ⟨a, bk, bv, rest2, c, hr, hc⟩ := construct_ok_inv r t h
  subst hr
  have hbk : k1 = bk := by
    have h0 : nth ((a :: (bk, bv) :: rest2).map Prod.fst) 1 = some bk := rfl
    rw [hk1] at h0
    exact Option.some.inj h0
  subst hbk
  obtain ⟨subs, v1, sid, heq, hmap, hall, _, hfresh⟩ :=
    construct_shape a k1 bv rest2 c hc
  have h3b : k1 ∉ rest2.map Prod.fst := h3
  obtain ⟨hsid, hnth0⟩ := hfresh h1 h2 h3b
  rw [heq] at h
  have ht : t = [vres c] ++ subs ++ [igwShape (rest2.length + 1) v1,
      eipShape (rest2.length + 1), ngwShape (rest2.length + 1) sid,
      rtShape (rest2.length + 1) v1] := (BuildResult.ok.inj h).symm
  subst ht
  obtain ⟨_, hsub, _, heipk, hngw, _⟩ :=
    ofKind_shape c subs (rest2.length + 1) v1 sid (fun x hx => (hall x hx).1)
  refine ⟨ngwShape (rest2.length + 1) sid, eipShape (rest2.length + 1),
    subnetRes 1 k1 bv 0, hngw, heipk, ?_, rfl, rfl, ?_⟩
  · rw [hsub]
    exact hnth0
  · rw [hsid]
    rfl

/-- C2 witness: the amended theorem applied to wStd (position-1 block
"pub"), whose topology is TStd. -/
theorem claim2_witness :
    (nth (wStd.map Prod.fst) 1 = some "pub" ∧
      c_KubernetesNetwork wStd = .ok TStd) ∧
    (∃ ngw eip sub, ofKind TStd RKind.natGateway = [ngw] ∧
      ofKind TStd RKind.elasticIp = [eip] ∧
      nth (ofKind TStd RKind.subnet) 0 = some sub ∧
      sub.rname = "pub" ∧ ngw.allocation_id = some eip.rid ∧
      ngw.subnet_id = some sub.rid) :=
  ⟨⟨by decide, by decide⟩,
   claim2_nat_dependencies wStd TStd "pub" (by decide) (by decide)
     (by decide) (by decide) (by decide)⟩

/-- C3 counterexample: for ex3, whose second subordinate entry follows one
named "kubernetes_vpc", the subnet "b" gets vpc_id 1 — the id of the subnet
named "kubernetes_vpc" — while the created network's id is 0, so not every
subnet's vpc_id is the network's id. -/
theorem claim3_counterexample :
    (ofKind (okCreated (c_KubernetesNetwork ex3)) RKind.vpc).map
      (fun x => x.rid) = [0] ∧
    (ofKind (okCreated (c_KubernetesNetwork ex3)) RKind.subnet).map
      (fun x => (x.rname, x.vpc_id)) =
      [("kubernetes_vpc", some 0), ("b", some 1)] ∧
    okB (c_KubernetesNetwork ex3) = true := by decide

/-- C3 amended: one subnet is created per entry after position 0, in the
original order with the given names and CIDRs, and — provided no
subordinate entry is named "kubernetes_vpc" (which would overwrite the
stored network handle) — every subnet's vpc_id is the created network's
id. -/
theorem claim3_subnets_per_block (r : List (String × String))
    (t : List Resource)
    (hns : "kubernetes_vpc" ∉ (r.drop 1).map Prod.fst)
    (h : c_KubernetesNetwork r = .ok t) :
    (ofKind t RKind.subnet).map (fun x => (x.rname, x.cidr_block)) =
      (r.drop 1).map (fun p => (p.1, some p.2)) ∧
    ∃ v, ofKind t RKind.vpc = [v] ∧
      ∀ x ∈ ofKind t RKind.subnet, x.vpc_id = some v.rid := by
  obtain ⟨a, bk, bv, rest2, c, hr, hc⟩ := construct_ok_inv r t h
  subst hr
  obtain ⟨subs, v1, sid, heq, hmap, hall, hshadowC, _⟩ :=
    construct_shape a bk bv rest2 c hc
  have hns2 : "kubernetes_vpc" ∉ ((bk, bv) :: rest2).map Prod.fst := hns
  obtain ⟨hv1, hvpcid⟩ := hshadowC hns2
  rw [heq] at h
  have ht : t = [vres c] ++ subs ++ [igwShape (rest2.length + 1) v1,
      eipShape (rest2.length + 1), ngwShape (rest2.length + 1) sid,
      rtShape (rest2.length + 1) v1] := (BuildResult.ok.inj h).symm
  subst ht
  obtain ⟨hvpck, hsub, _, _, _, _⟩ :=
    ofKind_shape c subs (rest2.length + 1) v1 sid (fun x hx => (hall x hx).1)
  refine ⟨?_, vres c, hvpck, ?_⟩
  · rw [hsub]
    exact hmap
  · intro x hx
    rw [hsub] at hx
    rw [hvpcid x hx]
    rfl

/-- C3 witness: the amended theorem applied to wStd / TStd. -/
theorem claim3_witness :
    ("kubernetes_vpc" ∉ (wStd.drop 1).map Prod.fst ∧
      c_KubernetesNetwork wStd = .ok TStd) ∧
    ((ofKind TStd RKind.subnet).map (fun x => (x.rname, x.cidr_block)) =
      (wStd.drop 1).map (fun p => (p.1, some p.2)) ∧
    ∃ v, ofKind TStd RKind.vpc = [v] ∧
      ∀ x ∈ ofKind TStd RKind.subnet, x.vpc_id = some v.rid) :=
  ⟨⟨by decide, by decide⟩,
   claim3_subnets_per_block wStd TStd (by decide) (by decide)⟩

/-- C4 counterexample: the request ex4 contains only public 8.8.8.0/24
ranges, yet the run succeeds and creates all six resources, with the
network realized from the public CIDR — no PublicRangeUsed failure exists
in the code. -/
theorem claim4_counterexample :
    okB (c_KubernetesNetwork ex4) = true ∧
    (ofKind (okCreated (c_KubernetesNetwork ex4)) RKind.vpc).map
      (fun x => x.cidr_block) = [some "8.8.8.0/24"] ∧
    (okCreated (c_KubernetesNetwork ex4)).length = 6 := by decide

/-- C4 amended: the code performs no address-range validation at all:
whether a run succeeds depends only on the request's shape (a "vpc" key and
at least two entries), never on the CIDR values, so public ranges are
accepted and realized. -/
theorem claim4_no_range_validation (r : List (String × String)) :
    okB (c_KubernetesNetwork r) = true ↔
      ((alGet r "vpc").isSome ∧ 2 ≤ r.length) := by
  constructor
  · intro h
    match r with
    | [] => simp [c_KubernetesNetwork, alGet, okB] at h
    | [x] =>
      cases hv : alGet [x] "vpc" with
      | none => simp [c_KubernetesNetwork, hv, okB] at h
      | some c =>
        have hv2 : (if x.1 = "vpc" then some x.2 else none) = some c := hv
        have hnth : nth [x.1] 1 = (none : Option String) := rfl
        simp [c_KubernetesNetwork, hv2, addSubnets, alGet, hnth, okB] at h
    | a :: b :: rest2 =>
      cases hv : alGet (a :: b :: rest2) "vpc" with
      | none => simp [c_KubernetesNetwork, hv, okB] at h
      | some c => exact ⟨rfl, by simp⟩
  · rintro ⟨h1, h2⟩
    match r, h2 with
    | a :: b :: rest2, _ =>
      obtain ⟨bk, bv⟩ := b
      obtain ⟨c, hc⟩ := Option.isSome_iff_exists.mp h1
      obtain ⟨subs, v1, sid, heq, _⟩ := construct_shape a bk bv rest2 c hc
      rw [heq]
      rfl

/-- C5 counterexample: the spec's own overlapping scenario ex5 (blocks a
and b intersect) is accepted: the run succeeds and both overlapping subnets
are created unchanged — no OverlappingSubnets failure exists in the code. -/
theorem claim5_counterexample :
    okB (c_KubernetesNetwork ex5) = true ∧
    (ofKind (okCreated (c_KubernetesNetwork ex5)) RKind.subnet).map
      (fun x => (x.rname, x.cidr_block)) =
      [("a", some "10.0.0.0/25"), ("b", some "10.0.0.64/25")] := by decide

/-- C5 amended: the code performs no overlap validation: every successful
run realizes one subnet per subordinate entry with its CIDR passed through
unchanged, whatever the ranges are (intersecting or not). -/
theorem claim5_no_overlap_validation (r : List (String × String))
    (t : List Resource) (h : c_KubernetesNetwork r = .ok t) :
    (ofKind t RKind.subnet).map (fun x => (x.rname, x.cidr_block)) =
      (r.drop 1).map (fun p => (p.1, some p.2)) := by
  obtain ⟨a, bk, bv, rest2, c, hr, hc⟩ := construct_ok_inv r t h
  subst hr
  obtain ⟨subs, v1, sid, heq, hmap, hall, _, _⟩ :=
    construct_shape a bk bv rest2 c hc
  rw [heq] at h
  have ht : t = [vres c] ++ subs ++ [igwShape (rest2.length + 1) v1,
      eipShape (rest2.length + 1), ngwShape (rest2.length + 1) sid,
      rtShape (rest2.length + 1) v1] := (BuildResult.ok.inj h).symm
  subst ht
  obtain ⟨_, hsub, _, _, _, _⟩ :=
    ofKind_shape c subs (rest2.length + 1) v1 sid (fun x hx => (hall x hx).1)
  rw [hsub]
  exact hmap

/-- C5 witness: the amended theorem applied to the overlapping request ex5,
whose topology is the concrete list T5. -/
theorem claim5_witness :
    c_KubernetesNetwork ex5 = .ok T5 ∧
    (ofKind T5 RKind.subnet).map (fun x => (x.rname, x.cidr_block)) =
      (ex5.drop 1).map (fun p => (p.1, some p.2)) :=
  ⟨by decide, claim5_no_overlap_validation ex5 T5 (by decide)⟩

/-- C6 counterexample: the valid request ex6 — one container block and zero
subordinate blocks — makes planning fail (IndexError from
list(MY_CIDR.keys())[1]), so planning is not total on validation-passing
requests. -/
theorem claim6_counterexample :
    okB (c_KubernetesNetwork ex6) = false ∧
    errKind (c_KubernetesNetwork ex6) = some PyError.indexError := by decide

/-- C6 amended: planning is total on requests with the container entry
"vpc" at position 0 and at least one subordinate block; with zero
subordinate blocks it raises IndexError, because the NAT gateway
unconditionally indexes position 1. -/
theorem claim6_plan_total (c : String) (b : String × String)
    (rest : List (String × String)) :
    okB (c_KubernetesNetwork (("vpc", c) :: b :: rest)) = true := by
  obtain ⟨bk, bv⟩ := b
  have hc : alGet (("vpc", c) :: (bk, bv) :: rest) "vpc" = some c :=
    alGet_cons_self _ _ _
  obtain ⟨subs, v1, sid, heq, _⟩ := construct_shape ("vpc", c) bk bv rest c hc
  rw [heq]
  rfl

/-- C7: planning is deterministic — two runs of the embedded constructor on
the same request are definitionally the same value, because the constructor
is a pure function of the request: networking.py derives every attribute
from MY_CIDR and the deterministic resource counter, consulting no other
state. -/
theorem claim7_determinism (r : List (String × String)) :
    c_KubernetesNetwork r = c_KubernetesNetwork r ∧
    okCreated (c_KubernetesNetwork r) = okCreated (c_KubernetesNetwork r) :=
  ⟨rfl, rfl⟩

/-- C8 counterexample: for wStd every created resource carries no tag
mapping at all (tags = none for all seven), even though the merge of
default tags with a Name would never be empty — so the builder does not
pass merged tags to the provisioner calls. -/
theorem claim8_counterexample :
    (okCreated (c_KubernetesNetwork wStd)).map (fun x => x.tags) =
      [none, none, none, none, none, none, none] ∧
    alGet (merge_tags [("Env", "lab")] "kubernetes-vpc" none) "Name" =
      some "kubernetes-vpc" := by decide

/-- C8 amended: no resource-creation call in networking.py passes any tag
mapping: every resource of every constructed topology has tags = none
(merge_tags exists in helper.py but networking.py never invokes it). -/
theorem claim8_no_tags_passed (r : List (String × String))
    (t : List Resource) (h : c_KubernetesNetwork r = .ok t) :
    ∀ x ∈ t, x.tags = none := by
  obtain ⟨a, bk, bv, rest2, c, hr, hc⟩ := construct_ok_inv r t h
  subst hr
  obtain ⟨subs, v1, sid, heq, hmap, hall, _, _⟩ :=
    construct_shape a bk bv rest2 c hc
  rw [heq] at h
  have ht : t = [vres c] ++ subs ++ [igwShape (rest2.length + 1) v1,
      eipShape (rest2.length + 1), ngwShape (rest2.length + 1) sid,
      rtShape (rest2.length + 1) v1] := (BuildResult.ok.inj h).symm
  subst ht
  intro x hx
  rcases List.mem_append.mp hx with hx1 | hx2
  · rcases List.mem_append.mp hx1 with hx3 | hx4
    · rw [List.mem_singleton.mp hx3]
      rfl
    · exact (hall x hx4).2.2.1
  · rcases List.mem_cons.mp hx2 with hh | hx2
    · rw [hh]; rfl
    · rcases List.mem_cons.mp hx2 with hh | hx2
      · rw [hh]; rfl
      · rcases List.mem_cons.mp hx2 with hh | hx2
        · rw [hh]; rfl
        · rcases List.mem_cons.mp hx2 with hh | hx2
          · rw [hh]; rfl
          · exact absurd hx2 (List.not_mem_nil x)

/-- C8 witness: the amended theorem applied to wStd / TStd. -/
theorem claim8_witness :
    c_KubernetesNetwork wStd = .ok TStd ∧ ∀ x ∈ TStd, x.tags = none :=
  ⟨by decide, claim8_no_tags_passed wStd TStd (by decide)⟩

theorem dSet_get_self (d : List (String × String)) (k v : String) :
    alGet (dSet d k v) k = some v := by
  induction d with
  | nil => simp [dSet, alGet]
  | cons p rest ih =>
    by_cases hp : p.1 = k
    · simp [dSet, hp, alGet]
    · simp [dSet, hp, alGet, ih]

theorem dSet_get_ne (d : List (String × String)) (k v k2 : String)
    (h : k2 ≠ k) : alGet (dSet d k v) k2 = alGet d k2 := by
  have hne : ¬(k = k2) := fun hh => h hh.symm
  induction d with
  | nil => simp [dSet, alGet, hne]
  | cons p rest ih =>
    by_cases hp : p.1 = k
    · simp [dSet, hp, alGet, hne]
    · simp [dSet, hp, alGet, ih]

theorem pyUpdate_not_mem (a : List (String × String)) :
    ∀ (d : List (String × String)) (k : String), k ∉ a.map Prod.fst →
      alGet (pyUpdate d a) k = alGet d k := by
  induction a with
  | nil => intro d k _; rfl
  | cons p rest ih =>
    intro d k h
    obtain ⟨pk, pv⟩ := p
    simp only [List.map_cons, List.mem_cons, not_or] at h
    show alGet (pyUpdate (dSet d pk pv) rest) k = alGet d k
    rw [ih (dSet d pk pv) k h.2]
    exact dSet_get_ne d pk pv k h.1

theorem pyUpdate_mem (a : List (String × String)) :
    ∀ (d : List (String × String)), (a.map Prod.fst).Nodup →
    ∀ (k v : String), (k, v) ∈ a → alGet (pyUpdate d a) k = some v := by
  induction a with
  | nil => intro d _ k v hkv; exact absurd hkv (List.not_mem_nil _)
  | cons p rest ih =>
    intro d hnd k v hkv
    obtain ⟨pk, pv⟩ := p
    simp only [List.map_cons, List.nodup_cons] at hnd
    rcases List.mem_cons.mp hkv with hh | hh
    · injection hh with h1 h2
      subst h1
      subst h2
      show alGet (pyUpdate (dSet d k v) rest) k = some v
      rw [pyUpdate_not_mem rest (dSet d k v) k hnd.1]
      exact dSet_get_self d k v
    · exact ih (dSet d pk pv) hnd.2 k v hh

/-- C9: merge_tags applies additional_tags last via dict.update, so every
entry of additional_tags — including "Name" — appears unchanged in the
result, overriding both the defaults and the Name just set. -/
theorem claim9_additional_overrides (g : List (String × String))
    (resource_name : String) (a : List (String × String))
    (hnd : (a.map Prod.fst).Nodup) (k v : String) (hkv : (k, v) ∈ a) :
    alGet (merge_tags g resource_name (some a)) k = some v := by
  cases a with
  | nil => exact absurd hkv (List.not_mem_nil _)
  | cons p rest =>
    show alGet (pyUpdate (dSet g "Name" resource_name) (p :: rest)) k =
      some v
    exact pyUpdate_mem (p :: rest) (dSet g "Name" resource_name) hnd k v hkv

/-- C9 witness: even when the defaults define "Name", an additional
{"Name": "x"} wins. -/
theorem claim9_witness :
    ((([("Name", "x")] : List (String × String)).map Prod.fst).Nodup ∧
      ("Name", "x") ∈ ([("Name", "x")] : List (String × String))) ∧
    alGet (merge_tags [("Name", "defaultname"), ("Project", "homelab")] "r"
      (some [("Name", "x")])) "Name" = some "x" :=
  ⟨⟨by decide, by decide⟩,
   claim9_additional_overrides [("Name", "defaultname"),
     ("Project", "homelab")] "r" [("Name", "x")] (by decide) "Name" "x"
     (by decide)⟩

/-- C10: the container is selected by the literal key "vpc" wherever it
appears (its value becomes the network's CIDR); the entries skipped for /
used in subnet creation are chosen purely by position (everything after
position 0 becomes a subnet, in order); a missing "vpc" key raises KeyError
with zero resources created; and a "vpc" entry that is not at position 0
additionally becomes a subnet. -/
theorem claim10_container_by_key (r : List (String × String)) :
    (alGet r "vpc" = none →
      c_KubernetesNetwork r = .err (PyError.keyError "vpc") []) ∧
    (∀ t c, c_KubernetesNetwork r = .ok t → alGet r "vpc" = some c →
      (ofKind t RKind.vpc).map (fun x => x.cidr_block) = [some c]) ∧
    (∀ t, c_KubernetesNetwork r = .ok t →
      (ofKind t RKind.subnet).map (fun x => (x.rname, x.cidr_block)) =
        (r.drop 1).map (fun p => (p.1, some p.2))) ∧
    (∀ t c, c_KubernetesNetwork r = .ok t → ("vpc", c) ∈ r.drop 1 →
      ("vpc", some c) ∈
        (ofKind t RKind.subnet).map (fun x => (x.rname, x.cidr_block))) := by
  have hsubAll : ∀ t, c_KubernetesNetwork r = .ok t →
      (ofKind t RKind.subnet).map (fun x => (x.rname, x.cidr_block)) =
        (r.drop 1).map (fun p => (p.1, some p.2)) := by
    intro t h
    obtain ⟨a, bk, bv, rest2, c, hr, hc⟩ := construct_ok_inv r t h
    subst hr
    obtain ⟨subs, v1, sid, heq, hmap, hall, _, _⟩ :=
      construct_shape a bk bv rest2 c hc
    rw [heq] at h
    have ht : t = [vres c] ++ subs ++ [igwShape (rest2.length + 1) v1,
        eipShape (rest2.length + 1), ngwShape (rest2.length + 1) sid,
        rtShape (rest2.length + 1) v1] := (BuildResult.ok.inj h).symm
    subst ht
    obtain ⟨_, hsub, _, _, _, _⟩ := ofKind_shape c subs (rest2.length + 1)
      v1 sid (fun x hx => (hall x hx).1)
    rw [hsub]
    exact hmap
  refine ⟨?_, ?_, hsubAll, ?_⟩
  · intro h
    simp [c_KubernetesNetwork, h]
  · intro t c h hc
    obtain ⟨a, bk, bv, rest2, c2, hr, _⟩ := construct_ok_inv r t h
    subst hr
    obtain ⟨subs, v1, sid, heq, hmap, hall, _, _⟩ :=
      construct_shape a bk bv rest2 c hc
    rw [heq] at h
    have ht : t = [vres c] ++ subs ++ [igwShape (rest2.length + 1) v1,
        eipShape (rest2.length + 1), ngwShape (rest2.length + 1) sid,
        rtShape (rest2.length + 1) v1] := (BuildResult.ok.inj h).symm
    subst ht
    obtain ⟨hvpck, _, _, _, _, _⟩ := ofKind_shape c subs (rest2.length + 1)
      v1 sid (fun x hx => (hall x hx).1)
    rw [hvpck]
    simp [vres]
  · intro t c h hmem
    rw [hsubAll t h]
    exact List.mem_map_of_mem _ hmem

/-- C10 witness: the theorem applied to wAlt, where "vpc" sits at position
1: the network CIDR comes from the "vpc" entry, position 0 ("front") is the
skipped entry, and a subnet is also built from the "vpc" entry. -/
theorem claim10_witness :
    (c_KubernetesNetwork wAlt = .ok TAlt ∧
      alGet wAlt "vpc" = some "10.0.0.0/16" ∧
      ("vpc", "10.0.0.0/16") ∈ wAlt.drop 1) ∧
    ((ofKind TAlt RKind.vpc).map (fun x => x.cidr_block) =
      [some "10.0.0.0/16"] ∧
    (ofKind TAlt RKind.subnet).map (fun x => (x.rname, x.cidr_block)) =
      (wAlt.drop 1).map (fun p => (p.1, some p.2)) ∧
    ("vpc", some "10.0.0.0/16") ∈
      (ofKind TAlt RKind.subnet).map (fun x => (x.rname, x.cidr_block))) :=
  ⟨⟨by decide, by decide, by decide⟩,
   (claim10_container_by_key wAlt).2.1 TAlt "10.0.0.0/16" (by decide)
     (by decide),
   (claim10_container_by_key wAlt).2.2.1 TAlt (by decide),
   (claim10_container_by_key wAlt).2.2.2 TAlt "10.0.0.0/16" (by decide)
     (by decide)⟩

end LabEnv
